import Mathlib

/-!
# Spark Job Monitor — verification of the spec against the code

Shallow embedding of the repository:

* the consumer (React UI under `spark-ui/`): the `Job` record's column set,
  the Jobs view's filter/pagination state machine, the query-parameter
  construction of `useJobs`, the `useStats`/refresh behaviour of `Nav`, and
  the Dashboard's `topJobTypes` computation;
* the generator (`spark_data_generator.py` is named by the README but its
  source is not in the repository snapshot): those parts are modelled from
  the spec and are marked `Modelled from the spec:` in their doc comments.

JavaScript numbers are modelled as `ℕ`/`ℤ`/`ℚ`; a JS division whose result
is `NaN`/`Infinity` (zero denominator) is modelled as `none : Option ℚ`.
-/

namespace Sparkling

/-! ## Job status domains -/

/-- Modelled from the spec: the generator's job status enumeration,
`status ∈ {COMPLETED, FAILED}` (spec §3). -/
inductive JobStatus where
  | COMPLETED
  | FAILED
deriving DecidableEq, Repr

/-- Modelled from the spec: the generator's operator status enumeration,
`status ∈ {COMPLETED, FAILED, SKIPPED}` (spec §3). -/
inductive OperatorStatus where
  | COMPLETED
  | FAILED
  | SKIPPED
deriving DecidableEq, Repr

/-- The Jobs view's status filter options (`statusOptions`, Jobs component). -/
def statusOptions : List String := ["ALL", "COMPLETED", "FAILED", "RUNNING"]

/-- The Jobs view's `statusIcon` switch: which icon component is rendered for a
job's status string (Jobs component). -/
def statusIcon (status : String) : String :=
  if status = "COMPLETED" then "CheckCircle"
  else if status = "FAILED" then "XCircle"
  else if status = "RUNNING" then "PlayCircle"
  else "Info"

/-- The Jobs view's `statusColor` switch (Jobs component). -/
def statusColor (status : String) : String :=
  if status = "COMPLETED" then "text-green-700"
  else if status = "FAILED" then "text-red-700"
  else if status = "RUNNING" then "text-yellow-700"
  else "text-gray-700"

/-- The `overview` object of the consumer's `StatsResponse`
(`useStats`, api/stats). -/
structure StatsOverview where
  total_jobs : ℕ
  completed_jobs : ℕ
  failed_jobs : ℕ
  running_jobs : ℕ
  success_rate : ℚ
deriving DecidableEq, Repr

/-- The Dashboard's `statusData` bar-chart input: one (name, value) pair per
displayed status category (Dashboard component). -/
def statusData (o : StatsOverview) : List (String × ℕ) :=
  [("Completed", o.completed_jobs), ("Running", o.running_jobs),
   ("Failed", o.failed_jobs)]

/-! ## Job record columns -/

/-- The field names of the consumer's `Job` interface
(`spark-ui/src/api/jobs.ts`), in declaration order. -/
def jobColumns : List String :=
  ["job_id", "job_name", "job_type", "status", "start_time", "end_time",
   "duration_seconds", "num_stages", "num_tasks", "num_executors",
   "input_size_mb", "output_size_mb", "memory_per_executor_mb",
   "total_memory_mb", "cpu_cores_per_executor", "shuffle_read_mb",
   "shuffle_write_mb", "gc_time_ms", "duration_formatted"]

/-- Modelled from the spec: the Job attributes listed in spec §3 (unique
identifier, human-readable name, category reference, status, start/end
timestamps, duration in seconds, executor count, per-executor memory/CPU,
total memory, input/output data size, shuffle read/write volume,
garbage-collection time), under the column names the consumer uses.
This definition follows the spec's words and is compared against
`jobColumns`, which follows the source. -/
def specJobColumns : List String :=
  ["job_id", "job_name", "job_type", "status", "start_time", "end_time",
   "duration_seconds", "num_executors", "memory_per_executor_mb",
   "cpu_cores_per_executor", "total_memory_mb", "input_size_mb",
   "output_size_mb", "shuffle_read_mb", "shuffle_write_mb", "gc_time_ms"]

/-! ## Refresh (Nav + useStats) -/

/-- HTTP method of a request the consumer issues. -/
inductive Method where
  | GET
  | POST
  | PUT
  | DELETE
deriving DecidableEq, Repr

/-- A request the consumer issues against the API. -/
structure Request where
  method : Method
  path : String
deriving DecidableEq, Repr

/-- A request is a write if its method is anything but GET. -/
def Request.isWrite (r : Request) : Bool := r.method != Method.GET

/-- The requests issued by one run of the `useStats` query function: a single
`client.get('/stats')` (api/stats). -/
def statsQueryFn : List Request := [{ method := Method.GET, path := "/stats" }]

/-- The requests issued by the Nav refresh button: its `onClick` calls
`refetch()`, which re-runs the stored `useStats` query function and nothing
else (Nav component). -/
def refreshEffect : List Request := statsQueryFn

/-! ## Jobs query parameters (useJobs) -/

/-- The query parameters of a `GET /jobs` request. `none` for `status` /
`job_type` means the parameter is absent from the request. -/
structure QueryParams where
  limit : ℕ
  offset : ℤ
  status : Option String
  job_type : Option String
deriving DecidableEq, Repr

/-- The parameter construction inside `useJobs` (`spark-ui/src/api/jobs.ts`):
`params = { limit, offset }`, then `status` is added when the JS condition
`status && status !== "ALL"` holds (a string is truthy iff non-empty), and
likewise `job_type`. -/
def buildJobsParams (limit : ℕ) (offset : ℤ)
    (status job_type : Option String) : QueryParams :=
  { limit := limit
    offset := offset
    status :=
      match status with
      | some s => if s ≠ "" ∧ s ≠ "ALL" then some s else none
      | none => none
    job_type :=
      match job_type with
      | some s => if s ≠ "" ∧ s ≠ "ALL" then some s else none
      | none => none }

/-! ## Jobs view state machine -/

/-- The Jobs view's `useState` cells: status filter, job-type filter,
page index and page size (Jobs component). The page index is an integer,
as in JS. -/
structure JobsViewState where
  statusFilter : String
  typeFilter : String
  page : ℤ
  pageSize : ℕ
deriving DecidableEq, Repr

/-- Initial state of the Jobs view: filters "ALL", page 0, page size 20. -/
def initialJobsState : JobsViewState :=
  { statusFilter := "ALL", typeFilter := "ALL", page := 0, pageSize := 20 }

/-- The page-size select's options (Jobs component). -/
def pageSizeOptions : List ℕ := [10, 20, 50, 100]

/-- `totalPages = Math.ceil(jobsTotal / jobPageSize)` (Jobs component),
as a natural-number ceiling division; the page size is always one of
`pageSizeOptions`, hence positive. -/
def totalPages (total pageSize : ℕ) : ℕ := (total + pageSize - 1) / pageSize

/-- `canPrev = jobPage > 0` (Jobs component). -/
def canPrev (st : JobsViewState) : Bool := decide (0 < st.page)

/-- `canNext = jobPage < totalPages - 1` (Jobs component); the subtraction is
JS integer arithmetic, so it is taken in `ℤ`. -/
def canNext (total : ℕ) (st : JobsViewState) : Bool :=
  decide (st.page < (totalPages total st.pageSize : ℤ) - 1)

/-- The user interactions of the Jobs view's control bar. The page-size
select can only emit one of the four `pageSizeOptions`, hence `Fin 4`. -/
inductive JobsAction where
  | setStatusFilter (s : String)
  | setTypeFilter (s : String)
  | setPageSize (i : Fin 4)
  | prevPage
  | nextPage

/-- One step of the Jobs view: each `onChange` handler of the filter and
page-size selects also calls `setJobPage(0)`; the Prev/Next buttons are
disabled (no-ops) unless `canPrev` / `canNext` (Jobs component). -/
def jobsStep (total : ℕ) (st : JobsViewState) : JobsAction → JobsViewState
  | .setStatusFilter s => { st with statusFilter := s, page := 0 }
  | .setTypeFilter s => { st with typeFilter := s, page := 0 }
  | .setPageSize i => { st with pageSize := pageSizeOptions.getD i.val 20, page := 0 }
  | .prevPage => if canPrev st then { st with page := st.page - 1 } else st
  | .nextPage => if canNext total st then { st with page := st.page + 1 } else st

/-- The states the Jobs view can reach from its initial state, for a fixed
total job count reported by the server. -/
inductive JobsReachable (total : ℕ) : JobsViewState → Prop where
  | init : JobsReachable total initialJobsState
  | step (st : JobsViewState) (a : JobsAction) :
      JobsReachable total st → JobsReachable total (jobsStep total st a)

/-- The `useJobs` invocation of the Jobs view (Jobs component):
`limit = jobPageSize`, `offset = jobPage * jobPageSize`,
`status = jobStatusFilter`, `job_type = jobTypeFilter`. -/
def jobsViewParams (st : JobsViewState) : QueryParams :=
  buildJobsParams st.pageSize (st.page * st.pageSize)
    (some st.statusFilter) (some st.typeFilter)

/-- A sample Jobs-view state: status filter COMPLETED, type filter "ALL",
page 2, page size 20. -/
def sampleJobsState : JobsViewState :=
  { statusFilter := "COMPLETED", typeFilter := "ALL", page := 2, pageSize := 20 }

/-! ## Dashboard top job types -/

/-- `type.replace(/_/g, " ")` (Dashboard component): every underscore of the
job-type name becomes a space. -/
def replaceUnderscores (s : String) : String :=
  String.mk (s.data.map (fun c => if c = '_' then ' ' else c))

/-- The result of the JS division `(count / totalJobs) * 100` as the
Dashboard computes it: a zero denominator gives `NaN`/`Infinity`, modelled
as `none`. -/
def jsPercent (count total : ℕ) : Option ℚ :=
  if total = 0 then none else some ((count : ℚ) / (total : ℚ) * 100)

/-- One row of the Dashboard's Top Job Types table. -/
structure JobTypeEntry where
  type : String
  count : ℕ
  percent : Option ℚ
deriving DecidableEq, Repr

/-- The per-entry map inside `topJobTypes` (Dashboard component). -/
def mkJobTypeEntry (totalJobs : ℕ) (p : String × ℕ) : JobTypeEntry :=
  { type := replaceUnderscores p.1
    count := p.2
    percent := jsPercent p.2 totalJobs }

/-- The Dashboard's `topJobTypes`: map the `job_types` entries to rows,
sort by count descending (`(a, b) => b.count - a.count`), take the first 5
(Dashboard component). -/
def topJobTypes (jobTypes : List (String × ℕ)) (totalJobs : ℕ) :
    List JobTypeEntry :=
  ((jobTypes.map (mkJobTypeEntry totalJobs)).mergeSort
    (fun a b => decide (b.count ≤ a.count))).take 5

/-! ## Generator model (modelled from the spec) -/

/-- Modelled from the spec: a Distribution Catalog entry (spec §3, §4.1) —
ordered stage names, a duration range and a failure probability (as a
percentage). -/
structure JobCategory where
  name : String
  stages : List String
  minDuration : ℕ
  maxDuration : ℕ
  failurePct : ℕ
deriving DecidableEq, Repr

/-- Modelled from the spec: the fixed small set of categories with visibly
different duration and failure profiles (spec §4.1). -/
def catalog : List JobCategory :=
  [{ name := "ETL", stages := ["read", "transform", "join", "write"],
     minDuration := 60, maxDuration := 3600, failurePct := 5 },
   { name := "ML_TRAINING", stages := ["load", "features", "train", "evaluate", "save"],
     minDuration := 600, maxDuration := 14400, failurePct := 12 },
   { name := "ANALYTICS", stages := ["scan", "aggregate", "report"],
     minDuration := 30, maxDuration := 1800, failurePct := 3 },
   { name := "STREAMING", stages := ["ingest", "window", "emit"],
     minDuration := 120, maxDuration := 7200, failurePct := 8 }]

/-- Fallback category for the (never taken) out-of-range catalog lookup. -/
def defaultCategory : JobCategory :=
  { name := "ETL", stages := ["read", "transform", "join", "write"],
    minDuration := 60, maxDuration := 3600, failurePct := 5 }

/-- Modelled from the spec: a 64-bit linear congruential pseudo-random step,
the explicit random source threaded through synthesis (spec §5, §9). -/
def lcgNext (s : ℕ) : ℕ :=
  (6364136223846793005 * s + 1442695040888963407) % 2 ^ 64

/-- Modelled from the spec: the per-job-index sub-seed, derived as a hash of
the base seed and the index so generation is reproducible and
order-independent (spec §5, §9). -/
def subSeed (seed idx : ℕ) : ℕ :=
  lcgNext ((seed + 11400714819323198485 * idx) % 2 ^ 64)

/-- Modelled from the spec: one generated Job record, reduced to the fields
the claims quantify over (identifier, status, duration, pipeline size and
the failure position used by the Operator Synthesizer). -/
structure GenJob where
  job_id : ℕ
  status : JobStatus
  duration : ℕ
  numStages : ℕ
  failIdx : ℕ
deriving DecidableEq, Repr

/-- Modelled from the spec: the Job Synthesizer (spec §4.2) — draw the
category, draw the status by the category's failure probability, draw the
duration from the category's range clamped to a positive floor, and draw
the failure position uniformly among stage positions. -/
def genJob (seed idx : ℕ) : GenJob :=
  let r0 := subSeed seed idx
  let cat := catalog.getD (r0 % catalog.length) defaultCategory
  let r1 := lcgNext r0
  let status :=
    if r1 % 100 < cat.failurePct then JobStatus.FAILED else JobStatus.COMPLETED
  let r2 := lcgNext r1
  let duration := max 1 (cat.minDuration + r2 % (cat.maxDuration - cat.minDuration + 1))
  let r3 := lcgNext r2
  { job_id := idx, status := status, duration := duration,
    numStages := cat.stages.length, failIdx := r3 % cat.stages.length }

/-- Modelled from the spec: the full generation run — one Job per index,
a pure function of the seed and the job count (spec §6). -/
def generateJobs (seed count : ℕ) : List GenJob :=
  (List.range count).map (genJob seed)

/-- Modelled from the spec: the status an operator at stage position `i`
receives (spec §4.3) — for a FAILED job the operator at the failure point is
FAILED, all prior operators are COMPLETED and all subsequent ones SKIPPED. -/
def operatorStatusAt (failIdx i : ℕ) : OperatorStatus :=
  if i < failIdx then .COMPLETED else if i = failIdx then .FAILED else .SKIPPED

/-- Modelled from the spec: the Operator Synthesizer's status assignment for
the ordered pipeline of a job with `n` stages (spec §4.3): all COMPLETED for
a COMPLETED job; for a FAILED job, positions before the failure point are
COMPLETED, the failure point is FAILED, the rest are SKIPPED. -/
def operatorStatuses (status : JobStatus) (n failIdx : ℕ) : List OperatorStatus :=
  match status with
  | .COMPLETED => List.replicate n .COMPLETED
  | .FAILED => (List.range n).map (operatorStatusAt failIdx)

/-- Numeric code of a job status in the serialized output. -/
def statusCode : JobStatus → ℕ
  | .COMPLETED => 0
  | .FAILED => 1

/-- Numeric code of an operator status in the serialized output. -/
def opStatusCode : OperatorStatus → ℕ
  | .COMPLETED => 0
  | .FAILED => 1
  | .SKIPPED => 2

/-- Modelled from the spec: the Writer's byte-level serialization of one Job
row together with its operator pipeline (spec §4.6), as a flat number
sequence. -/
def serializeJob (j : GenJob) : List ℕ :=
  [j.job_id, statusCode j.status, j.duration, j.numStages] ++
    (operatorStatuses j.status j.numStages j.failIdx).map opStatusCode

/-- Modelled from the spec: the serialized output table of a generation
run (spec §4.6). -/
def serializeJobs (jobs : List GenJob) : List ℕ :=
  (jobs.map serializeJob).flatten

/-- Modelled from the spec: the zero-division-protected success rate,
`completed / total`, defined as 0 when `total` is 0 (spec §4.5, §7). -/
def successRate (completed total : ℕ) : ℚ :=
  if total = 0 then 0 else (completed : ℚ) / (total : ℚ)

/-- Modelled from the spec: the single-row SummaryStats aggregate, reduced
to the counts and the rate the claims quantify over (spec §3, §4.5). -/
structure SummaryStats where
  total_jobs : ℕ
  completed_jobs : ℕ
  failed_jobs : ℕ
  success_rate : ℚ
deriving DecidableEq, Repr

/-- Modelled from the spec: the Aggregator (spec §4.5) — a pure full pass
over the job collection, counting by status and protecting the rate
against a zero denominator. -/
def aggregate (jobs : List GenJob) : SummaryStats :=
  { total_jobs := jobs.length
    completed_jobs := (jobs.filter (fun j => j.status == JobStatus.COMPLETED)).length
    failed_jobs := (jobs.filter (fun j => j.status == JobStatus.FAILED)).length
    success_rate :=
      successRate (jobs.filter (fun j => j.status == JobStatus.COMPLETED)).length
        jobs.length }

/-! ## Helper lemmas -/

lemma operatorStatusAt_failed_iff (k i : ℕ) :
    (operatorStatusAt k i == OperatorStatus.FAILED) = true ↔ i = k := by
  unfold operatorStatusAt
  rcases Nat.lt_trichotomy i k with h | h | h
  · rw [if_pos h]
    constructor
    · intro hb
      exact absurd hb (by decide)
    · omega
  · subst h
    rw [if_neg (by omega), if_pos rfl]
    exact iff_of_true rfl rfl
  · rw [if_neg (by omega), if_neg (by omega)]
    constructor
    · intro hb
      exact absurd hb (by decide)
    · omega

lemma countP_failed_range (n k : ℕ) (h : k < n) :
    List.countP (fun i => operatorStatusAt k i == OperatorStatus.FAILED)
      (List.range n) = 1 := by
  have hcongr : ∀ x ∈ List.range n,
      ((operatorStatusAt k x == OperatorStatus.FAILED) = true) ↔
        ((x == k) = true) := by
    intro x _
    rw [operatorStatusAt_failed_iff]
    exact (by simp : ((x == k) = true) ↔ x = k).symm
  rw [List.countP_congr hcongr, ← List.count_eq_countP]
  exact List.count_eq_one_of_mem (List.nodup_range n) (List.mem_range.mpr h)

lemma completed_add_failed (jobs : List GenJob) :
    (jobs.filter (fun j => j.status == JobStatus.COMPLETED)).length
      + (jobs.filter (fun j => j.status == JobStatus.FAILED)).length
      = jobs.length := by
  induction jobs with
  | nil => rfl
  | cons j rest ih =>
    rcases hj : j.status with _ | _ <;>
      simp [List.filter_cons, hj] <;> omega

lemma topJobTypes_count_trans (a b c : JobTypeEntry) :
    (decide (b.count ≤ a.count)) = true → (decide (c.count ≤ b.count)) = true →
    (decide (c.count ≤ a.count)) = true := by
  intro hab hbc
  simp at hab hbc ⊢
  omega

lemma topJobTypes_count_total (a b : JobTypeEntry) :
    ((decide (b.count ≤ a.count)) || (decide (a.count ≤ b.count))) = true := by
  simp
  omega

/-! ## Claims -/

/-- Claim C1 (corrected). The claim asserts that no status value beyond
COMPLETED and FAILED occurs anywhere in the consumer's job-status domain;
the Jobs view's filter options and status icon/color switches also model
RUNNING, refuting it. This counterexample exhibits RUNNING as a consumer
status value with its own dedicated icon and color (not the fall-through
default). -/
theorem C1_counterexample :
    "RUNNING" ∈ statusOptions ∧
    statusIcon "RUNNING" = "PlayCircle" ∧
    statusColor "RUNNING" = "text-yellow-700" ∧
    ¬("RUNNING" = "COMPLETED" ∨ "RUNNING" = "FAILED") := by
  refine ⟨by decide, by decide, by decide, by decide⟩

/-- Claim C1 (amended): every job the generator produces has status
COMPLETED or FAILED, but the consumer's job-status domain is wider — its
status filter options are ALL/COMPLETED/FAILED/RUNNING, it renders RUNNING
with a dedicated icon, and its stats overview carries a `running_jobs`
count displayed as its own bar-chart category. -/
theorem C1_theorem (seed n : ℕ) (j : GenJob) (_hj : j ∈ generateJobs seed n) :
    (j.status = JobStatus.COMPLETED ∨ j.status = JobStatus.FAILED) ∧
    statusOptions = ["ALL", "COMPLETED", "FAILED", "RUNNING"] ∧
    statusIcon "RUNNING" = "PlayCircle" ∧
    (∀ o : StatsOverview, (statusData o).map Prod.fst =
      ["Completed", "Running", "Failed"]) := by
  refine ⟨?_, rfl, by decide, fun o => rfl⟩
  rcases h : j.status with _ | _
  · exact Or.inl rfl
  · exact Or.inr rfl

/-- Witness for C1: the amended claim instantiated at seed 0 with one
generated job. -/
theorem C1_witness :
    ((genJob 0 0).status = JobStatus.COMPLETED ∨
      (genJob 0 0).status = JobStatus.FAILED) ∧
    statusOptions = ["ALL", "COMPLETED", "FAILED", "RUNNING"] ∧
    statusIcon "RUNNING" = "PlayCircle" ∧
    (∀ o : StatsOverview, (statusData o).map Prod.fst =
      ["Completed", "Running", "Failed"]) :=
  C1_theorem 0 1 (genJob 0 0)
    (by rw [generateJobs]; exact List.mem_map_of_mem _ (List.mem_range.mpr Nat.one_pos))

/-- Claim C2 (confirmed, against the spec-modelled Operator Synthesizer):
for a FAILED job's pipeline the status sequence has exactly one FAILED
operator, every position strictly before the failure point is COMPLETED,
every position strictly after it (within the pipeline) is SKIPPED; for a
COMPLETED job every operator status is COMPLETED. -/
theorem C2_theorem (n failIdx : ℕ) (hf : failIdx < n) :
    ((operatorStatuses .FAILED n failIdx).countP
      (· == OperatorStatus.FAILED) = 1) ∧
    (∀ i, i < failIdx →
      (operatorStatuses .FAILED n failIdx)[i]? = some .COMPLETED) ∧
    ((operatorStatuses .FAILED n failIdx)[failIdx]? = some .FAILED) ∧
    (∀ i, failIdx < i → i < n →
      (operatorStatuses .FAILED n failIdx)[i]? = some .SKIPPED) ∧
    (∀ m, ∀ s ∈ operatorStatuses .COMPLETED m failIdx, s = .COMPLETED) := by
  refine ⟨?_, ?_, ?_, ?_, ?_⟩
  · rw [operatorStatuses, List.countP_map]
    exact countP_failed_range n failIdx hf
  · intro i hi
    rw [operatorStatuses, List.getElem?_map, List.getElem?_range (by omega)]
    simp [operatorStatusAt, hi]
  · rw [operatorStatuses, List.getElem?_map, List.getElem?_range hf]
    simp [operatorStatusAt]
  · intro i h1 h2
    rw [operatorStatuses, List.getElem?_map, List.getElem?_range h2]
    have ha : ¬ i < failIdx := by omega
    have hb : i ≠ failIdx := by omega
    simp [operatorStatusAt, ha, hb]
  · intro m s hs
    rw [operatorStatuses] at hs
    exact List.eq_of_mem_replicate hs

/-- Witness for C2: a 4-stage pipeline failing at position 1 — the pattern
COMPLETED, FAILED, SKIPPED, SKIPPED of the spec's example scenario. -/
theorem C2_witness :
    1 < 4 ∧
    (((operatorStatuses .FAILED 4 1).countP
        (· == OperatorStatus.FAILED) = 1) ∧
     (∀ i, i < 1 →
       (operatorStatuses .FAILED 4 1)[i]? = some .COMPLETED) ∧
     ((operatorStatuses .FAILED 4 1)[1]? = some .FAILED) ∧
     (∀ i, 1 < i → i < 4 →
       (operatorStatuses .FAILED 4 1)[i]? = some .SKIPPED) ∧
     (∀ m, ∀ s ∈ operatorStatuses .COMPLETED m 1, s = .COMPLETED)) :=
  ⟨by decide, C2_theorem 4 1 (by decide)⟩

/-- Claim C3 (corrected). The claim asserts every percentage over the job
corpus is defined as 0 when the total job count is 0; the Dashboard's
`topJobTypes` computes `(count / totalJobs) * 100` with no zero-denominator
guard, so for `totalJobs = 0` with a job-type entry present it yields
NaN (modelled `none`), not 0. -/
theorem C3_counterexample :
    topJobTypes [("ETL", 3)] 0 =
      [{ type := "ETL", count := 3, percent := none }] ∧
    (none : Option ℚ) ≠ some 0 := by
  constructor
  · simp [topJobTypes, mkJobTypeEntry, jsPercent, replaceUnderscores]
  · simp

/-- Claim C3 (amended): the generator's success rate (spec-modelled) is
defined as 0 when the total is 0; the Dashboard's per-job-type percentage
equals `count / total * 100` and is a well-defined rational (never NaN) for
every entry whenever `total_jobs > 0`, but for `total_jobs = 0` the
unguarded division yields NaN (`none`) rather than 0. -/
theorem C3_theorem (completed count total : ℕ)
    (entries : List (String × ℕ)) (h : 0 < total) :
    successRate completed 0 = 0 ∧
    jsPercent count total = some ((count : ℚ) / (total : ℚ) * 100) ∧
    jsPercent count 0 = none ∧
    (∀ e ∈ topJobTypes entries total, e.percent ≠ none) := by
  refine ⟨rfl, ?_, rfl, ?_⟩
  · rw [jsPercent, if_neg (by omega)]
  · intro e he
    rw [topJobTypes] at he
    have he1 : e ∈ (entries.map (mkJobTypeEntry total)).mergeSort
        (fun a b => decide (b.count ≤ a.count)) := List.mem_of_mem_take he
    have he2 : e ∈ entries.map (mkJobTypeEntry total) :=
      (List.mergeSort_perm _ _).mem_iff.mp he1
    rcases List.mem_map.mp he2 with ⟨p, _, hp⟩
    rw [← hp]
    have ht : total ≠ 0 := by omega
    simp [mkJobTypeEntry, jsPercent, ht]

/-- Witness for C3: the amended claim instantiated at a corpus of 4 jobs
with one job type of count 1. -/
theorem C3_witness :
    0 < 4 ∧
    (successRate 2 0 = 0 ∧
     jsPercent 1 4 = some ((1 : ℚ) / (4 : ℚ) * 100) ∧
     jsPercent 1 0 = none ∧
     (∀ e ∈ topJobTypes [("ETL", 1)] 4, e.percent ≠ none)) :=
  ⟨by decide, C3_theorem 2 1 4 [("ETL", 1)] (by decide)⟩

/-- Claim C4 (confirmed, against the spec-modelled Aggregator): for every
job corpus, `total_jobs` equals the number of job records,
`completed_jobs + failed_jobs = total_jobs`, and `success_rate` is
`completed_jobs / total_jobs`, 0 when `total_jobs` is 0. -/
theorem C4_theorem (jobs : List GenJob) :
    (aggregate jobs).total_jobs = jobs.length ∧
    (aggregate jobs).completed_jobs + (aggregate jobs).failed_jobs =
      (aggregate jobs).total_jobs ∧
    (aggregate jobs).success_rate =
      (if (aggregate jobs).total_jobs = 0 then 0
       else ((aggregate jobs).completed_jobs : ℚ) /
         ((aggregate jobs).total_jobs : ℚ)) :=
  ⟨rfl, completed_add_failed jobs, rfl⟩

/-- Witness for C4: the aggregator equations on a concrete generated
corpus of 2 jobs. -/
theorem C4_witness :
    (aggregate (generateJobs 0 2)).total_jobs = (generateJobs 0 2).length ∧
    (aggregate (generateJobs 0 2)).completed_jobs +
        (aggregate (generateJobs 0 2)).failed_jobs =
      (aggregate (generateJobs 0 2)).total_jobs ∧
    (aggregate (generateJobs 0 2)).success_rate =
      (if (aggregate (generateJobs 0 2)).total_jobs = 0 then 0
       else ((aggregate (generateJobs 0 2)).completed_jobs : ℚ) /
         ((aggregate (generateJobs 0 2)).total_jobs : ℚ)) :=
  C4_theorem (generateJobs 0 2)

/-- Claim C5 (confirmed, against the spec-modelled generator): the
generation run is a pure function of the seed and the job count — two runs
with the same seed and the same count serialize to identical byte
sequences. -/
theorem C5_theorem (seed₁ seed₂ count₁ count₂ : ℕ)
    (hs : seed₁ = seed₂) (hc : count₁ = count₂) :
    serializeJobs (generateJobs seed₁ count₁) =
      serializeJobs (generateJobs seed₂ count₂) := by
  rw [hs, hc]

/-- Witness for C5: determinism of the run at seed 3, count 5. -/
theorem C5_witness :
    (3 : ℕ) = 3 ∧ (5 : ℕ) = 5 ∧
    serializeJobs (generateJobs 3 5) = serializeJobs (generateJobs 3 5) :=
  ⟨rfl, rfl, C5_theorem 3 3 5 5 rfl rfl⟩

/-- Claim C6 (corrected). The claim asserts the consumer's Job record type
matches exactly the spec's §3 attribute set; the source interface also
declares `num_stages`, `num_tasks` and `duration_formatted`, refuting
exactness. This counterexample exhibits `num_stages` as a Job column
outside the §3 attribute set. -/
theorem C6_counterexample :
    "num_stages" ∈ jobColumns ∧ "num_stages" ∉ specJobColumns := by
  refine ⟨by decide, by decide⟩

/-- Claim C6 (amended): the consumer's Job record contains a column for
every §3 Job attribute, and its columns beyond that attribute set are
exactly `num_stages`, `num_tasks` and `duration_formatted` — a strict
superset of the §3 list, not an exact match. -/
theorem C6_theorem :
    (specJobColumns.all (fun c => jobColumns.contains c)) = true ∧
    jobColumns.filter (fun c => !(specJobColumns.contains c)) =
      ["num_stages", "num_tasks", "duration_formatted"] := by
  refine ⟨by decide, by decide⟩

/-- Claim C7 (confirmed): the Nav refresh button's only effect is to re-run
the stored `useStats` query function, which issues exactly one GET of
`/stats` — no write and no regeneration request. -/
theorem C7_theorem :
    refreshEffect = statsQueryFn ∧
    refreshEffect = [{ method := Method.GET, path := "/stats" }] ∧
    (refreshEffect.all (fun r => ! r.isWrite)) = true :=
  ⟨rfl, rfl, by decide⟩

/-- Claim C8 (confirmed): for every Jobs-view state, the `useJobs` request
has `limit` equal to the page size, `offset` equal to page index times page
size, and the `status` (resp. `job_type`) parameter is present iff the
filter value is a non-empty string different from "ALL", in which case it
equals the filter value exactly. -/
theorem C8_theorem (st : JobsViewState) :
    (jobsViewParams st).limit = st.pageSize ∧
    (jobsViewParams st).offset = st.page * st.pageSize ∧
    (∀ v, (jobsViewParams st).status = some v ↔
      st.statusFilter ≠ "" ∧ st.statusFilter ≠ "ALL" ∧ v = st.statusFilter) ∧
    (∀ v, (jobsViewParams st).job_type = some v ↔
      st.typeFilter ≠ "" ∧ st.typeFilter ≠ "ALL" ∧ v = st.typeFilter) := by
  refine ⟨rfl, rfl, ?_, ?_⟩
  · intro v
    show (if st.statusFilter ≠ "" ∧ st.statusFilter ≠ "ALL"
        then some st.statusFilter else none) = some v ↔ _
    split_ifs with h
    · constructor
      · intro hv
        exact ⟨h.1, h.2, (Option.some_inj.mp hv).symm⟩
      · intro hv
        rw [hv.2.2]
    · constructor
      · intro hv
        exact absurd hv (by simp)
      · intro hv
        exact absurd ⟨hv.1, hv.2.1⟩ h
  · intro v
    show (if st.typeFilter ≠ "" ∧ st.typeFilter ≠ "ALL"
        then some st.typeFilter else none) = some v ↔ _
    split_ifs with h
    · constructor
      · intro hv
        exact ⟨h.1, h.2, (Option.some_inj.mp hv).symm⟩
      · intro hv
        rw [hv.2.2]
    · constructor
      · intro hv
        exact absurd hv (by simp)
      · intro hv
        exact absurd ⟨hv.1, hv.2.1⟩ h

/-- Witness for C8: the parameter construction at a state with a COMPLETED
status filter, type filter "ALL", page 2, page size 20. -/
theorem C8_witness :
    (jobsViewParams sampleJobsState).limit = 20 ∧
    (jobsViewParams sampleJobsState).offset = 2 * 20 ∧
    (∀ v, (jobsViewParams sampleJobsState).status = some v ↔
      ("COMPLETED" : String) ≠ "" ∧ ("COMPLETED" : String) ≠ "ALL" ∧
        v = "COMPLETED") ∧
    (∀ v, (jobsViewParams sampleJobsState).job_type = some v ↔
      ("ALL" : String) ≠ "" ∧ ("ALL" : String) ≠ "ALL" ∧ v = "ALL") :=
  C8_theorem sampleJobsState

/-- Claim C9 (confirmed): every reachable Jobs-view state has a
non-negative page index that is below the page count or zero; Prev is
enabled exactly when the page index is positive, Next exactly when it is
below `totalPages - 1`, and every filter or page-size change resets the
page index to 0. -/
theorem C9_theorem (total : ℕ) (st : JobsViewState)
    (h : JobsReachable total st) :
    (0 ≤ st.page ∧
      (st.page < (totalPages total st.pageSize : ℤ) ∨ st.page = 0)) ∧
    (canPrev st = true ↔ 0 < st.page) ∧
    (canNext total st = true ↔
      st.page < (totalPages total st.pageSize : ℤ) - 1) ∧
    (∀ s, (jobsStep total st (.setStatusFilter s)).page = 0) ∧
    (∀ s, (jobsStep total st (.setTypeFilter s)).page = 0) ∧
    (∀ i, (jobsStep total st (.setPageSize i)).page = 0) := by
  have hinv : 0 ≤ st.page ∧
      (st.page < (totalPages total st.pageSize : ℤ) ∨ st.page = 0) := by
    induction h with
    | init => simp [initialJobsState]
    | step st' a _ ih =>
      cases a with
      | setStatusFilter s => simp [jobsStep]
      | setTypeFilter s => simp [jobsStep]
      | setPageSize i => simp [jobsStep]
      | prevPage =>
        rw [jobsStep]
        by_cases hc : canPrev st' = true
        · rw [if_pos hc]
          rw [canPrev, decide_eq_true_eq] at hc
          constructor
          · simp
            omega
          · left
            rcases ih.2 with h2 | h2
            · simp
              omega
            · omega
        · rw [if_neg (by simpa using hc)]
          exact ih
      | nextPage =>
        rw [jobsStep]
        by_cases hc : canNext total st' = true
        · rw [if_pos hc]
          rw [canNext, decide_eq_true_eq] at hc
          constructor
          · simp
            omega
          · left
            simp
            omega
        · rw [if_neg (by simpa using hc)]
          exact ih
  refine ⟨hinv, ?_, ?_, ?_, ?_, ?_⟩
  · simp [canPrev]
  · simp [canNext]
  · intro s
    rfl
  · intro s
    rfl
  · intro i
    rfl

/-- Witness for C9: the pagination invariant at the initial Jobs-view state
with a server-reported total of 100 jobs. -/
theorem C9_witness :
    (0 ≤ initialJobsState.page ∧
      (initialJobsState.page <
        (totalPages 100 initialJobsState.pageSize : ℤ) ∨
       initialJobsState.page = 0)) ∧
    (canPrev initialJobsState = true ↔ 0 < initialJobsState.page) ∧
    (canNext 100 initialJobsState = true ↔
      initialJobsState.page <
        (totalPages 100 initialJobsState.pageSize : ℤ) - 1) ∧
    (∀ s, (jobsStep 100 initialJobsState (.setStatusFilter s)).page = 0) ∧
    (∀ s, (jobsStep 100 initialJobsState (.setTypeFilter s)).page = 0) ∧
    (∀ i, (jobsStep 100 initialJobsState (.setPageSize i)).page = 0) :=
  C9_theorem 100 initialJobsState JobsReachable.init

/-- Claim C10 (confirmed): for every stats response, the Dashboard's top
job types list has `min 5 (number of job types)` entries, is sorted in
nonincreasing order of count, and every entry it keeps has a count at
least that of every job-type row it leaves out. -/
theorem C10_theorem (jobTypes : List (String × ℕ)) (totalJobs : ℕ) :
    (topJobTypes jobTypes totalJobs).length = min 5 jobTypes.length ∧
    List.Pairwise (fun a b => b.count ≤ a.count)
      (topJobTypes jobTypes totalJobs) ∧
    (∀ x ∈ topJobTypes jobTypes totalJobs,
      ∀ y ∈ jobTypes.map (mkJobTypeEntry totalJobs),
        y ∉ topJobTypes jobTypes totalJobs → y.count ≤ x.count) := by
  have hsorted := List.sorted_mergeSort topJobTypes_count_trans
    topJobTypes_count_total (jobTypes.map (mkJobTypeEntry totalJobs))
  have hperm := List.mergeSort_perm (jobTypes.map (mkJobTypeEntry totalJobs))
    (fun a b => decide (b.count ≤ a.count))
  refine ⟨?_, ?_, ?_⟩
  · rw [topJobTypes, List.length_take, List.length_mergeSort, List.length_map]
  · have h := List.Pairwise.sublist (List.take_sublist 5 _) hsorted
    rw [topJobTypes]
    exact h.imp (fun hab => by simpa using hab)
  · intro x hx y hy hyn
    rw [topJobTypes] at hx hyn
    have hymem : y ∈ (jobTypes.map (mkJobTypeEntry totalJobs)).mergeSort
        (fun a b => decide (b.count ≤ a.count)) := hperm.mem_iff.mpr hy
    have hsplit : List.Pairwise
        (fun a b : JobTypeEntry => decide (b.count ≤ a.count) = true)
        (List.take 5 ((jobTypes.map (mkJobTypeEntry totalJobs)).mergeSort
          (fun a b => decide (b.count ≤ a.count))) ++
         List.drop 5 ((jobTypes.map (mkJobTypeEntry totalJobs)).mergeSort
          (fun a b => decide (b.count ≤ a.count)))) := by
      rw [List.take_append_drop]
      exact hsorted
    rw [List.pairwise_append] at hsplit
    have hydrop : y ∈ ((jobTypes.map (mkJobTypeEntry totalJobs)).mergeSort
        (fun a b => decide (b.count ≤ a.count))).drop 5 := by
      have hin : y ∈ List.take 5 ((jobTypes.map (mkJobTypeEntry totalJobs)).mergeSort
          (fun a b => decide (b.count ≤ a.count))) ++
          List.drop 5 ((jobTypes.map (mkJobTypeEntry totalJobs)).mergeSort
          (fun a b => decide (b.count ≤ a.count))) := by
        rw [List.take_append_drop]
        exact hymem
      rcases List.mem_append.mp hin with h | h
      · exact absurd h hyn
      · exact h
    simpa using hsplit.2.2 x hx y hydrop

/-- Witness for C10: the top-job-types length equation on a concrete
two-type response over 4 jobs. -/
theorem C10_witness :
    (topJobTypes [("ETL", 3), ("ANALYTICS", 1)] 4).length =
      min 5 ([("ETL", 3), ("ANALYTICS", 1)] : List (String × ℕ)).length :=
  (C10_theorem [("ETL", 3), ("ANALYTICS", 1)] 4).1

end Sparkling
